import Mathlib

/-!
Verification of the RunPod serverless handler for ACE-Step 1.5 cover mode
(`src/handler.py`, version 3 per its module docstring).

The development shallowly embeds the handler.  Python dynamic values are the
inductive `Value`; the CPython library boundary (string-to-number coercion,
base64 codec, the `acestep` collaborator, the filesystem and the clock) is a
`World` record of abstract behaviours, while the handler's own control flow,
defaults, messages and state updates are translated line by line from the
source.  Machine-level arithmetic plays no role: the numeric parameters are
`Rat`/`Int`, matching the exact literals the source uses.
-/

namespace SophiaRunpod

/-- A Python run-time value as it can appear in a job's `input` mapping or a
result mapping.  `none` is Python's `None` (also what `dict.get` yields for an
absent key). -/
inductive Value where
  | str (s : String)
  | int (n : Int)
  | float (q : Rat)
  | bool (b : Bool)
  | none
deriving DecidableEq, Repr

/-- Python truthiness (`bool(v)`) on the embedded values: empty string, zero,
`False` and `None` are falsy. -/
def pyTruthy : Value → Bool
  | .str s => !s.isEmpty
  | .int n => n != 0
  | .float q => q != 0
  | .bool b => b
  | .none => false

/-- An input mapping: association list from key to value, first binding wins
(Python dicts have unique keys; lookup takes the first). -/
abbrev InputMap := List (String × Value)

/-- Python `d.get(k, default)`: the stored value when the key is present (even if the
stored value is `None`), otherwise the default. -/
def pyGetD (d : InputMap) (k : String) (dflt : Value) : Value :=
  match List.lookup k d with
  | Option.some v => v
  | Option.none => dflt

/-- Python `d.get(k)` — absent keys give `None`. -/
def pyGet (d : InputMap) (k : String) : Value :=
  pyGetD d k .none

/-- Behaviour of the external library boundary: CPython stdlib calls and the
`acestep` collaborator.  The handler's claims depend only on whether such a
call succeeds and on the payload it yields, never on the library internals, so
each is an abstract function packed in the per-process `World` below. -/
structure Stdlib where
  /-- Behaviour of `float(s)` on a string: a parsed rational or a raised `ValueError`. -/
  strToFloat : String → Except String Rat
  /-- Behaviour of `int(s)` on a string: a parsed integer or a raised `ValueError`. -/
  strToInt : String → Except String Int
  /-- Behaviour of `base64.b64decode(s)`: the decoded bytes or a raised `binascii.Error`. -/
  b64decode : String → Except String (List Nat)
  /-- Behaviour of `base64.b64encode(bytes).decode()`: total on byte strings. -/
  b64encode : List Nat → String

/-- Coercion `float(v)` (source lines 114, 120, 122).  Numbers and booleans convert;
strings go through the stdlib parser; `None` raises `TypeError`. -/
def pyFloat (lib : Stdlib) : Value → Except String Rat
  | .float q => .ok q
  | .int n => .ok (n : Rat)
  | .bool b => .ok (if b then 1 else 0)
  | .str s => lib.strToFloat s
  | .none => .error "TypeError: float() argument must be a string or a real number, not NoneType"

/-- Truncation of a rational toward zero, the behaviour of `int()` on floats. -/
def ratTrunc (q : Rat) : Int :=
  Int.tdiv q.num (q.den : Int)

/-- Coercion `int(v)` (source lines 115, 118, 121, 123). -/
def pyInt (lib : Stdlib) : Value → Except String Int
  | .int n => .ok n
  | .float q => .ok (ratTrunc q)
  | .bool b => .ok (if b then 1 else 0)
  | .str s => lib.strToInt s
  | .none => .error "TypeError: int() argument must be a string or a real number, not NoneType"

/-- Python `v.strip().lower()` (source line 148): defined on strings, raises
`AttributeError` on any other value. -/
def pyStripLower : Value → Except String String
  | .str s => .ok (s.trim.toLower)
  | _ => .error "AttributeError: object has no attribute strip"

/-- The process-wide module state of `handler.py`: `_dit_handler`,
`_llm_handler` and `_init_error` (source lines 26-29).  The handles are opaque
collaborator objects, kept as `Option Unit`. -/
structure ModelState where
  ditHandler : Option Unit
  llmHandler : Option Unit
  initError : Option String
deriving DecidableEq, Repr

/-- Module state at process start: nothing loaded, no recorded error. -/
def initialState : ModelState :=
  { ditHandler := Option.none, llmHandler := Option.none, initError := Option.none }

/-- Outcome of one attempt at the external initialization
(`AceStepHandler.initialize_service`, source lines 62-71, together with the
imports and constructor of the attempt): the call returns a status message and
a success flag, or the attempt raises. -/
inductive InitBehavior where
  | ok (statusMsg : String)
  | failed (statusMsg : String)
  | raised (e : String)
deriving DecidableEq, Repr

/-- The parameter record the handler passes to `generate_music`
(source lines 142-157). -/
structure GenerationParams where
  task_type : String
  reference_audio : String
  audio_cover_strength : Rat
  caption : Value
  lyrics : Value
  instrumental : Bool
  bpm : Option Int
  keyscale : Value
  duration : Rat
  inference_steps : Int
  seed : Int
  shift : Rat
  thinking : Bool
  infer_method : String
deriving DecidableEq, Repr

/-- The configuration record passed to `generate_music`
(source lines 159-163). -/
structure GenerationConfig where
  batch_size : Int
  audio_format : String
  use_random_seed : Bool
deriving DecidableEq, Repr

/-- One produced audio descriptor: a dict carrying at least a file path;
`audio_info.get("path", "")` reads it (source line 187). -/
structure AudioInfo where
  path : Option String
deriving DecidableEq, Repr

/-- The result object `generate_music` returns: success flag, error message,
list of produced audio descriptors (source lines 179-187). -/
structure GenResult where
  success : Bool
  error : String
  audios : List AudioInfo
deriving DecidableEq, Repr

/-- Outcome of one `generate_music` call: a result object, or a raised
exception (which also stands for a failure of the in-`try` import at source
line 140 or of `tempfile.mkdtemp`). -/
inductive GenOutcome where
  | returns (r : GenResult)
  | raises (e : String)
deriving DecidableEq, Repr

/-- Everything outside the handler's own code that one job can observe: the
library boundary, the collaborator behaviours, the output filesystem and the
measured inference time. -/
structure World where
  lib : Stdlib
  init : InitBehavior
  gen : GenOutcome
  /-- Contents of the output filesystem: `os.path.exists p` is `isSome`,
  reading the file yields the bytes. -/
  outFiles : String → Option (List Nat)
  /-- The measured `time.time()` difference around the generation call. -/
  elapsed : Rat

/-- Embedding of `_ensure_model_loaded` (source lines 32-91).  Returns the Python outcome
(`ok` or a raised exception message), the updated module state, and the number
of initialization attempts that reached the external-load section. -/
def ensureModelLoaded (w : World) (s : ModelState) :
    Except String Unit × ModelState × Nat :=
  match s.ditHandler with
  | Option.some _ =>
    -- lines 36-37: `if _dit_handler is not None: return`
    (.ok (), s, 0)
  | Option.none =>
    match s.initError with
    | Option.some e => (.error ("Previous init failed: " ++ e), s, 0)
    | Option.none =>
      match w.init with
      | .ok _ =>
        (.ok (),
         { ditHandler := Option.some (), llmHandler := Option.some (),
           initError := Option.none }, 1)
      | .failed statusMsg =>
        -- lines 75-78 set `_init_error` and raise; the except block at 86-91
        -- re-records the same message and re-raises with a second prefix
        let ie := "DiT init failed: " ++ statusMsg
        (.error ("Model init failed: " ++ ie),
         { ditHandler := Option.none, llmHandler := Option.none,
           initError := Option.some ie }, 1)
      | .raised e =>
        (.error ("Model init failed: " ++ e),
         { ditHandler := Option.none, llmHandler := Option.none,
           initError := Option.some e }, 1)

/-- The parameters the handler extracts from the input mapping
(source lines 111-123), after coercion. -/
structure Extracted where
  reference_audio_b64 : Value
  prompt : Value
  lyrics : Value
  audio_cover_strength : Rat
  inference_steps : Int
  bpm : Option Int
  key_scale : Value
  duration : Rat
  seed : Int
  shift : Rat
  batch_size : Int
deriving DecidableEq, Repr

/-- Parameter extraction (source lines 111-123), in source order; a coercion
failure is a raised exception, uncaught at this point of the handler. -/
def extractParams (lib : Stdlib) (d : InputMap) : Except String Extracted := do
  let reference_audio_b64 := pyGetD d "reference_audio" (.str "")
  let prompt := pyGetD d "prompt" (.str "")
  let lyrics := pyGetD d "lyrics" (.str "[Instrumental]")
  let audio_cover_strength ← pyFloat lib (pyGetD d "audio_cover_strength" (.float (1/2)))
  let inference_steps ← pyInt lib (pyGetD d "inference_steps" (.int 8))
  let bpm ← match pyGet d "bpm" with
    | .none => pure Option.none
    | v => do pure (Option.some (← pyInt lib v))
  let key_scale := pyGetD d "key_scale" (.str "")
  let duration ← pyFloat lib (pyGetD d "duration" (.int 30))
  let seed ← pyInt lib (pyGetD d "seed" (.int (-1)))
  let shift ← pyFloat lib (pyGetD d "shift" (.float 3))
  let batch_size ← pyInt lib (pyGetD d "batch_size" (.int 1))
  pure { reference_audio_b64, prompt, lyrics, audio_cover_strength,
         inference_steps, bpm, key_scale, duration, seed, shift, batch_size }

/-- A value inside a returned result mapping. -/
inductive RVal where
  | str (s : String)
  | int (n : Int)
  | rat (q : Rat)
  | bool (b : Bool)
deriving DecidableEq, Repr

/-- A returned result mapping, kept as the literal association list each
`return` site of the source builds. -/
abbrev ResultMap := List (String × RVal)

/-- Key lookup in a result mapping. -/
def ResultMap.lookup (m : ResultMap) (k : String) : Option RVal :=
  List.lookup k m

/-- The Python outcome of one `handler(event)` call: a returned mapping, or an
exception propagating out of the function. -/
inductive Outcome where
  | returns (m : ResultMap)
  | raises (e : String)
deriving DecidableEq, Repr

/-- Observable per-job side effects: how many initialization attempts reached
the external-load section, the one `generate_music` delegation (arguments and
outcome) when it happened, whether the fixed-path reference temp file was
created this job, and whether the cleanup `os.unlink` ran. -/
structure Trace where
  initAttempts : Nat
  genCall : Option (GenerationParams × GenerationConfig × GenOutcome)
  tempWritten : Bool
  tempUnlinked : Bool
deriving Repr

/-- Whether the staged temp file still exists when the job finishes, for a job
that staged it: staging creates the file at the fixed path, and the cleanup
(`os.unlink` under `try/except OSError`, source lines 210-215) removes it and
never raises, tolerating absence. -/
def Trace.tempExistsAfter (t : Trace) : Bool :=
  t.tempWritten && !t.tempUnlinked

/-- The fixed staging path (source line 129):
`os.path.join(tempfile.gettempdir(), "sophia_ref_input.wav")`. -/
def refPath : String := "/tmp/sophia_ref_input.wav"

/-- Python `round(q, 2)` on the measured elapsed time (source line 203).  Modelled as
round-half-up on rationals; Python's ties-to-even differs only at exact ties,
which no claim observes. -/
def pyRound2 (q : Rat) : Rat :=
  ((q * 100 + 1/2).floor : Int) / 100

/-- The `try` block of source lines 138-208 together with its `except`: builds
the parameter and configuration records, delegates to `generate_music`, and
translates the result; every exception inside is caught and becomes an
`Inference error` mapping.  Returns the mapping and the recorded delegation. -/
def inferencePhase (w : World) (p : Extracted) :
    ResultMap × Option (GenerationParams × GenerationConfig × GenOutcome) :=
  match pyStripLower p.lyrics with
  | .error e => ([("error", .str ("Inference error: " ++ e))], Option.none)
  | .ok lyr =>
    let params : GenerationParams :=
      { task_type := "cover"
        reference_audio := refPath
        audio_cover_strength := p.audio_cover_strength
        caption := p.prompt
        lyrics := p.lyrics
        instrumental := lyr = "[instrumental]" ∨ lyr = "[inst]" ∨ lyr = ""
        bpm := p.bpm
        keyscale := p.key_scale
        duration := p.duration
        inference_steps := p.inference_steps
        seed := p.seed
        shift := p.shift
        thinking := false
        infer_method := "ode" }
    let config : GenerationConfig :=
      { batch_size := p.batch_size
        audio_format := "wav"
        use_random_seed := p.seed == -1 }
    let call := Option.some (params, config, w.gen)
    match w.gen with
    | .raises e => ([("error", .str ("Inference error: " ++ e))], call)
    | .returns r =>
      match r.success with
      | false =>
        -- line 179: `if not result.success`
        ([("error", .str ("Generation failed: " ++ r.error))], call)
      | true =>
        match r.audios with
        | [] => ([("error", .str "Generation produced no audio outputs")], call)
        | a :: _ =>
          -- line 187: `audio_path = audio_info.get("path", "")`, written inline;
          -- line 189: `if not audio_path or not os.path.exists(audio_path)`,
          -- in Python's short-circuit order (emptiness first, then existence)
          match ((a.path).getD "").isEmpty, w.outFiles ((a.path).getD "") with
          | true, _ =>
            ([("error", .str ("Output audio not found at: " ++ (a.path).getD ""))], call)
          | false, Option.none =>
            ([("error", .str ("Output audio not found at: " ++ (a.path).getD ""))], call)
          | false, Option.some bytes =>
            ([("audio_b64", .str (w.lib.b64encode bytes)),
              ("format", .str "wav"),
              ("duration", .rat p.duration),
              ("seed", .int p.seed),
              ("inference_time", .rat (pyRound2 w.elapsed))], call)

/-- Behaviour of `base64.b64decode(v)` on a dynamic value (source line 131): only strings
decode; any other value raises `TypeError`. -/
def b64decodeValue (lib : Stdlib) : Value → Except String (List Nat)
  | .str b64 => lib.b64decode b64
  | _ => .error "TypeError: argument should be a bytes-like object or ASCII string"

/-- A job payload: `event` is a dict; `event["input"]` raises `KeyError` when
the key is absent (source line 108). -/
structure Job where
  input : Option InputMap

/-- Embedding of `handler(event)` (source lines 98-215): the per-job entry point.  Returns
the Python outcome, the updated module state and the side-effect trace. -/
def handler (w : World) (s : ModelState) (job : Job) :
    Outcome × ModelState × Trace :=
  match ensureModelLoaded w s with
  | (.error e, s', n) =>
    -- lines 100-103: the load failure is caught and returned as an error map
    (.returns [("error", .str e)], s',
     { initAttempts := n, genCall := Option.none,
       tempWritten := false, tempUnlinked := false })
  | (.ok (), s', n) =>
    match s'.ditHandler with
    | Option.none =>
      -- lines 105-106 (unreachable after a successful load, kept faithfully)
      (.returns [("error", .str ("Model not loaded: " ++
          ((s'.initError).getD "None")))], s',
       { initAttempts := n, genCall := Option.none,
         tempWritten := false, tempUnlinked := false })
    | Option.some _ =>
      match job.input with
      | Option.none =>
        -- line 108: `event["input"]` raises KeyError, uncaught
        (.raises "KeyError: input", s',
         { initAttempts := n, genCall := Option.none,
           tempWritten := false, tempUnlinked := false })
      | Option.some d =>
        match extractParams w.lib d with
        | .error e =>
          -- lines 111-123: a coercion failure propagates, uncaught
          (.raises e, s',
           { initAttempts := n, genCall := Option.none,
             tempWritten := false, tempUnlinked := false })
        | .ok p =>
          match pyTruthy p.reference_audio_b64 with
          | false =>
            -- lines 125-126: `if not reference_audio_b64`, before any staging
            (.returns [("error", .str "reference_audio (base64) is required for cover mode")],
             s',
             { initAttempts := n, genCall := Option.none,
               tempWritten := false, tempUnlinked := false })
          | true =>
            -- lines 128-131: `open` creates the file, then the decode runs
            match b64decodeValue w.lib p.reference_audio_b64 with
            | .error e =>
              -- a decode failure propagates after the file was created;
              -- the later `finally` is never entered
              (.raises e, s',
               { initAttempts := n, genCall := Option.none,
                 tempWritten := true, tempUnlinked := false })
            | .ok _ =>
              let (m, call) := inferencePhase w p
              -- the `finally` at lines 210-215 runs on every path out of the
              -- `try`, removing the staged file
              (.returns m, s',
               { initAttempts := n, genCall := call,
                 tempWritten := true, tempUnlinked := true })

/-- One process-level event: a direct `_ensure_model_loaded()` call (the
startup pre-load at source line 226) or one job dispatch. -/
inductive Call where
  | ensure (w : World)
  | job (w : World) (j : Job)

/-- The module state after one event. -/
def stepCall (s : ModelState) : Call → ModelState
  | .ensure w => (ensureModelLoaded w s).2.1
  | .job w j => (handler w s j).2.1

/-- The module state after a sequence of events starting from `s`. -/
def runCalls (cs : List Call) (s : ModelState) : ModelState :=
  cs.foldl stepCall s

/-!
Concrete fixtures used by witnesses and counterexamples.
-/

/-- A stdlib fixture: string coercions reject (no claim exercises them), the
codec decodes everything to a fixed byte string and encodes to "QUJD". -/
def libOk : Stdlib :=
  { strToFloat := fun _ => .error "ValueError"
    strToInt := fun _ => .error "ValueError"
    b64decode := fun _ => .ok [1, 2, 3]
    b64encode := fun _ => "QUJD" }

/-- A collaborator run that succeeds with one output file. -/
def genGood : GenOutcome :=
  .returns { success := true, error := "", audios := [{ path := Option.some "/out/a.wav" }] }

/-- A world where initialization succeeds, generation succeeds and the one
output file exists. -/
def wLoadedOk : World :=
  { lib := libOk, init := .ok "ready", gen := genGood
    outFiles := fun p => if p = "/out/a.wav" then Option.some [9, 8] else Option.none
    elapsed := 5/2 }

/-- A world whose initialization attempt reports failure. -/
def wFailedInit : World :=
  { wLoadedOk with init := .failed "boom" }

/-- Module state with the model loaded. -/
def sLoaded : ModelState :=
  { ditHandler := Option.some (), llmHandler := Option.some (), initError := Option.none }

/-- A well-formed cover job: a non-empty base64 reference audio. -/
def jobGood : Job :=
  { input := Option.some [("reference_audio", .str "QUJD")] }

/-!
Helper lemmas.
-/

/-- Each extracted field in terms of the input mapping, when extraction
succeeds: the uncoerced fields are the raw `get` results, the coerced fields
are the successful coercion of the raw `get` result, and `bpm` follows the
`None` test of source lines 116-118. -/
theorem extractParams_fields {lib : Stdlib} {d : InputMap} {p : Extracted}
    (h : extractParams lib d = .ok p) :
    p.reference_audio_b64 = pyGetD d "reference_audio" (.str "") ∧
    p.prompt = pyGetD d "prompt" (.str "") ∧
    p.lyrics = pyGetD d "lyrics" (.str "[Instrumental]") ∧
    pyFloat lib (pyGetD d "audio_cover_strength" (.float (1/2))) = .ok p.audio_cover_strength ∧
    pyInt lib (pyGetD d "inference_steps" (.int 8)) = .ok p.inference_steps ∧
    (pyGet d "bpm" = .none → p.bpm = Option.none) ∧
    p.key_scale = pyGetD d "key_scale" (.str "") ∧
    pyFloat lib (pyGetD d "duration" (.int 30)) = .ok p.duration ∧
    pyInt lib (pyGetD d "seed" (.int (-1))) = .ok p.seed ∧
    pyFloat lib (pyGetD d "shift" (.float 3)) = .ok p.shift ∧
    pyInt lib (pyGetD d "batch_size" (.int 1)) = .ok p.batch_size := by
  unfold extractParams at h
  simp only [bind, Except.bind, pure, Except.pure] at h
  repeat' split at h
  all_goals cases h
  all_goals simp_all

/-- The mapping the inference phase yields is either the one-key error map or
the five-key success map. -/
theorem inferencePhase_shape_proj (w : World) (p : Extracted) :
    (∃ e, (inferencePhase w p).1 = [("error", RVal.str e)]) ∨
    (∃ a q n t, (inferencePhase w p).1 =
      [("audio_b64", RVal.str a), ("format", RVal.str "wav"),
       ("duration", RVal.rat q), ("seed", RVal.int n),
       ("inference_time", RVal.rat t)]) := by
  unfold inferencePhase
  repeat' split
  all_goals simp

/-- Equation form of `inferencePhase_shape_proj`. -/
theorem inferencePhase_shape {w : World} {p : Extracted} {m : ResultMap}
    {c : Option (GenerationParams × GenerationConfig × GenOutcome)}
    (h : inferencePhase w p = (m, c)) :
    (∃ e, m = [("error", RVal.str e)]) ∨
    (∃ a q n t, m = [("audio_b64", RVal.str a), ("format", RVal.str "wav"),
                     ("duration", RVal.rat q), ("seed", RVal.int n),
                     ("inference_time", RVal.rat t)]) := by
  have hp := inferencePhase_shape_proj w p
  rw [h] at hp
  exact hp

/-- Every mapping `handler` returns is either the one-key error map or the
five-key success map. -/
theorem handler_returns_shape {w : World} {s : ModelState} {job : Job}
    {m : ResultMap} (h : (handler w s job).1 = Outcome.returns m) :
    (∃ e, m = [("error", RVal.str e)]) ∨
    (∃ a q n t, m = [("audio_b64", RVal.str a), ("format", RVal.str "wav"),
                     ("duration", RVal.rat q), ("seed", RVal.int n),
                     ("inference_time", RVal.rat t)]) := by
  revert h
  unfold handler
  repeat' split
  all_goals intro h
  all_goals try exact Outcome.noConfusion h
  all_goals injection h with h
  all_goals subst h
  all_goals try (left; exact ⟨_, rfl⟩)
  exact inferencePhase_shape (by assumption)

/-!
Claim theorems.
-/

/-- C1, counterexample: the code has no liveness-check branch.  With the model
loaded, a ping payload is answered by the `reference_audio` validation error —
a mapping with no `pong` key — and with the model unloaded, the very same ping
payload drives a model-initialization attempt. -/
theorem C1_ping_counterexample :
    (handler wLoadedOk sLoaded { input := Option.some [("ping", Value.bool true)] }).1 =
      .returns [("error", RVal.str "reference_audio (base64) is required for cover mode")] ∧
    ResultMap.lookup
      [("error", RVal.str "reference_audio (base64) is required for cover mode")] "pong" =
      Option.none ∧
    (handler wLoadedOk initialState
      { input := Option.some [("ping", Value.bool true)] }).2.2.initAttempts = 1 :=
  ⟨rfl, rfl, rfl⟩

/-- C1, amended: the latest handler has no liveness-check branch at all — no
mapping it ever returns contains a `pong` key; a payload requesting ping is
processed as an ordinary job, including attempting model initialization when
the model is not loaded. -/
theorem C1_no_pong_ever (w : World) (s : ModelState) (job : Job)
    (m : ResultMap) (h : (handler w s job).1 = Outcome.returns m) :
    m.lookup "pong" = Option.none := by
  rcases handler_returns_shape h with ⟨e, rfl⟩ | ⟨a, q, n, t', rfl⟩ <;> rfl

/-- C1, witness for the amended theorem at a concrete ping job. -/
theorem C1_no_pong_ever_witness :
    ResultMap.lookup
      [("error", RVal.str "reference_audio (base64) is required for cover mode")] "pong" =
      Option.none :=
  C1_no_pong_ever wLoadedOk sLoaded { input := Option.some [("ping", Value.bool true)] }
    _ (by rfl)

/-- C5: once the DiT handle is set, `_ensure_model_loaded` returns at once —
unchanged state, no initialization attempt (source lines 36-37) — so no
duplicate initialization ever happens after a success. -/
theorem C5_loaded_skips_reinit (w : World) (s : ModelState)
    (h : s.ditHandler.isSome = true) :
    ensureModelLoaded w s = (.ok (), s, 0) := by
  obtain ⟨u, hu⟩ := Option.isSome_iff_exists.mp h
  simp [ensureModelLoaded, hu]

/-- C5, witness: the loaded state with a concrete world. -/
theorem C5_loaded_skips_reinit_witness :
    ensureModelLoaded wLoadedOk sLoaded = (.ok (), sLoaded, 0) :=
  C5_loaded_skips_reinit wLoadedOk sLoaded (by rfl)

/-- C7: whenever a job staged the reference temp file and `handler` returned a
mapping (success and error alike), the cleanup ran and the staged file no
longer exists; the cleanup is the `try os.unlink except OSError` of source
lines 210-215, which tolerates an absent file and never raises. -/
theorem C7_temp_file_cleaned (w : World) (s : ModelState) (job : Job)
    (m : ResultMap) (h : (handler w s job).1 = Outcome.returns m)
    (hw : (handler w s job).2.2.tempWritten = true) :
    (handler w s job).2.2.tempUnlinked = true ∧
    (handler w s job).2.2.tempExistsAfter = false := by
  revert h hw
  unfold handler
  repeat' split
  all_goals intro h hw
  all_goals first
    | exact Outcome.noConfusion h
    | simp_all [Trace.tempExistsAfter]

/-- C7, witness: a concrete successful job that staged the temp file. -/
theorem C7_temp_file_cleaned_witness :
    ((handler wLoadedOk sLoaded jobGood).2.2.tempUnlinked = true ∧
     (handler wLoadedOk sLoaded jobGood).2.2.tempExistsAfter = false) :=
  C7_temp_file_cleaned wLoadedOk sLoaded jobGood
    [("audio_b64", RVal.str "QUJD"), ("format", RVal.str "wav"),
     ("duration", RVal.rat 30), ("seed", RVal.int (-1)),
     ("inference_time", RVal.rat (pyRound2 (5/2)))]
    (by rfl) (by rfl)

/-- The record extraction yields on the empty input mapping: every recognized
key omitted, every field its default. -/
def defaultExtracted : Extracted :=
  { reference_audio_b64 := .str "", prompt := .str "", lyrics := .str "[Instrumental]",
    audio_cover_strength := 1/2, inference_steps := 8, bpm := Option.none,
    key_scale := .str "", duration := 30, seed := -1, shift := 3, batch_size := 1 }

/-- C2: the sticky-failure bug.  After one failed initialization attempt
(`initialize_service` reports failure with message "boom"), the recorded
`_init_error` makes every later job short-circuit with `Previous init failed`
and issue no new initialization attempt — even in a world whose
initialization would now succeed.  This contradicts the source's own startup
comments (lines 223-229, "will retry per-job"). -/
theorem C2_sticky_failure_never_retries :
    ensureModelLoaded wFailedInit initialState =
      (.error "Model init failed: DiT init failed: boom",
       { ditHandler := Option.none, llmHandler := Option.none,
         initError := Option.some "DiT init failed: boom" }, 1) ∧
    handler wLoadedOk
      { ditHandler := Option.none, llmHandler := Option.none,
        initError := Option.some "DiT init failed: boom" } jobGood =
      (.returns [("error", RVal.str "Previous init failed: DiT init failed: boom")],
       { ditHandler := Option.none, llmHandler := Option.none,
         initError := Option.some "DiT init failed: boom" },
       { initAttempts := 0, genCall := Option.none,
         tempWritten := false, tempUnlinked := false }) :=
  ⟨rfl, rfl⟩

/-- C3, counterexample: with the model unloaded, a job with no
`reference_audio` still drives a model-initialization attempt (the load gate
at line 101 precedes validation at line 125); and a job with no
`reference_audio` but a `None` `audio_cover_strength` raises instead of
returning an error mapping (coercion at line 114 precedes validation too). -/
theorem C3_validation_counterexample :
    (handler wLoadedOk initialState { input := Option.some [] }).2.2.initAttempts = 1 ∧
    (handler wLoadedOk sLoaded
        { input := Option.some [("audio_cover_strength", Value.none)] }).1 =
      Outcome.raises
        "TypeError: float() argument must be a string or a real number, not NoneType" :=
  ⟨rfl, rfl⟩

/-- C3, amended: for every job whose parameters coerce successfully and whose
`reference_audio` is falsy (empty or absent), `handler` returns an error
mapping, stages no temp file and performs no generation call; model
initialization may however be attempted first. -/
theorem C3_no_ref_audio_no_generation (w : World) (s : ModelState)
    (d : InputMap) (p : Extracted)
    (hx : extractParams w.lib d = .ok p)
    (href : pyTruthy p.reference_audio_b64 = false) :
    ∃ e, (handler w s { input := Option.some d }).1 =
        Outcome.returns [("error", RVal.str e)] ∧
      (handler w s { input := Option.some d }).2.2.tempWritten = false ∧
      (handler w s { input := Option.some d }).2.2.genCall = Option.none := by
  unfold handler
  repeat' split
  all_goals first
    | exact ⟨_, rfl, rfl, rfl⟩
    | simp_all

/-- C3, witness: absent `reference_audio` with the model loaded. -/
theorem C3_no_ref_audio_no_generation_witness :
    ∃ e, (handler wLoadedOk sLoaded { input := Option.some [] }).1 =
        Outcome.returns [("error", RVal.str e)] ∧
      (handler wLoadedOk sLoaded { input := Option.some [] }).2.2.tempWritten = false ∧
      (handler wLoadedOk sLoaded { input := Option.some [] }).2.2.genCall = Option.none :=
  C3_no_ref_audio_no_generation wLoadedOk sLoaded [] defaultExtracted
    (by rfl) (by rfl)

/-- C4, counterexample: a coercion failure propagates out of `handler`
uncaught — a `None` `inference_steps` makes the per-job call raise instead of
returning a mapping (lines 111-123 sit outside every `try`). -/
theorem C4_exception_counterexample :
    (handler wLoadedOk sLoaded
        { input := Option.some [("reference_audio", Value.str "QUJD"),
                                ("inference_steps", Value.none)] }).1 =
      Outcome.raises
        "TypeError: int() argument must be a string or a real number, not NoneType" :=
  rfl

/-- C4, amended: `handler` returns a mapping (success or error) for every job
payload that has an `input` mapping, whose parameters coerce successfully and
whose `reference_audio`, when truthy, base64-decodes; failures during model
loading and during the inference block are caught and converted to an error
mapping, but exceptions from a missing `input` key, parameter coercion, or
reference-audio decoding propagate. -/
theorem C4_returns_mapping_when_wellformed (w : World) (s : ModelState)
    (d : InputMap) (p : Extracted)
    (hx : extractParams w.lib d = .ok p)
    (hdec : pyTruthy p.reference_audio_b64 = true →
      ∃ bs, b64decodeValue w.lib p.reference_audio_b64 = .ok bs) :
    ∃ m, (handler w s { input := Option.some d }).1 = Outcome.returns m := by
  unfold handler
  repeat' split
  all_goals first
    | exact ⟨_, rfl⟩
    | simp_all

/-- C4, witness: a well-formed cover job yields a returned mapping. -/
theorem C4_returns_mapping_when_wellformed_witness :
    ∃ m, (handler wLoadedOk sLoaded
        { input := Option.some [("reference_audio", Value.str "QUJD")] }).1 =
      Outcome.returns m :=
  C4_returns_mapping_when_wellformed wLoadedOk sLoaded
    [("reference_audio", Value.str "QUJD")]
    { reference_audio_b64 := .str "QUJD", prompt := .str "", lyrics := .str "[Instrumental]",
      audio_cover_strength := 1/2, inference_steps := 8, bpm := Option.none,
      key_scale := .str "", duration := 30, seed := -1, shift := 3, batch_size := 1 }
    (by rfl) (fun _ => ⟨[1, 2, 3], by rfl⟩)

/-- C9: when a recognized key is omitted from the input mapping, the value
used is exactly the documented default (source lines 111-123). -/
theorem C9_omitted_keys_take_defaults (lib : Stdlib) (d : InputMap)
    (p : Extracted) (h : extractParams lib d = .ok p) :
    (List.lookup "prompt" d = Option.none → p.prompt = .str "") ∧
    (List.lookup "lyrics" d = Option.none → p.lyrics = .str "[Instrumental]") ∧
    (List.lookup "audio_cover_strength" d = Option.none → p.audio_cover_strength = 1/2) ∧
    (List.lookup "inference_steps" d = Option.none → p.inference_steps = 8) ∧
    (List.lookup "bpm" d = Option.none → p.bpm = Option.none) ∧
    (List.lookup "key_scale" d = Option.none → p.key_scale = .str "") ∧
    (List.lookup "duration" d = Option.none → p.duration = 30) ∧
    (List.lookup "seed" d = Option.none → p.seed = -1) ∧
    (List.lookup "shift" d = Option.none → p.shift = 3) ∧
    (List.lookup "batch_size" d = Option.none → p.batch_size = 1) := by
  obtain ⟨h1, h2, h3, h4, h5, h6, h7, h8, h9, h10, h11⟩ := extractParams_fields h
  refine ⟨?_, ?_, ?_, ?_, ?_, ?_, ?_, ?_, ?_, ?_⟩ <;> intro hk
  · simp_all [pyGetD]
  · simp_all [pyGetD]
  · simp_all [pyGetD, pyFloat]
  · simp_all [pyGetD, pyInt]
  · exact h6 (by simp [pyGet, pyGetD, hk])
  · simp_all [pyGetD]
  · simp_all [pyGetD, pyFloat]
  · simp_all [pyGetD, pyInt]
  · simp_all [pyGetD, pyFloat]
  · simp_all [pyGetD, pyInt]

/-- C9, witness: the empty input mapping omits every key, extraction yields
`defaultExtracted`, and each of its fields is the documented default. -/
theorem C9_omitted_keys_take_defaults_witness :
    extractParams libOk [] = .ok defaultExtracted ∧
    defaultExtracted.prompt = .str "" ∧
    defaultExtracted.lyrics = .str "[Instrumental]" ∧
    defaultExtracted.audio_cover_strength = 1/2 ∧
    defaultExtracted.inference_steps = 8 ∧
    defaultExtracted.bpm = Option.none ∧
    defaultExtracted.key_scale = .str "" ∧
    defaultExtracted.duration = 30 ∧
    defaultExtracted.seed = -1 ∧
    defaultExtracted.shift = 3 ∧
    defaultExtracted.batch_size = 1 := by
  have h := C9_omitted_keys_take_defaults libOk [] defaultExtracted (by rfl)
  exact ⟨rfl, h.1 rfl, h.2.1 rfl, h.2.2.1 rfl, h.2.2.2.1 rfl,
         h.2.2.2.2.1 rfl, h.2.2.2.2.2.1 rfl, h.2.2.2.2.2.2.1 rfl,
         h.2.2.2.2.2.2.2.1 rfl, h.2.2.2.2.2.2.2.2.1 rfl,
         h.2.2.2.2.2.2.2.2.2 rfl⟩

theorem inferencePhase_gen_failed {w : World} {p : Extracted} {m : ResultMap}
    {c : Option (GenerationParams × GenerationConfig × GenOutcome)}
    {pc : GenerationParams} {cc : GenerationConfig} {r : GenResult}
    (h : inferencePhase w p = (m, c))
    (hc : c = Option.some (pc, cc, GenOutcome.returns r))
    (hs : r.success = false) :
    m = [("error", RVal.str ("Generation failed: " ++ r.error))] := by
  revert h
  unfold inferencePhase
  repeat' split
  all_goals intro h
  all_goals injection h with h1 h2
  all_goals subst h1
  all_goals subst h2
  all_goals simp_all

theorem inferencePhase_bad_outputs {w : World} {p : Extracted} {m : ResultMap}
    {c : Option (GenerationParams × GenerationConfig × GenOutcome)}
    {pc : GenerationParams} {cc : GenerationConfig} {r : GenResult}
    (h : inferencePhase w p = (m, c))
    (hc : c = Option.some (pc, cc, GenOutcome.returns r))
    (_hs : r.success = true)
    (hbad : r.audios = [] ∨ ∃ a rest, r.audios = a :: rest ∧
      (((a.path).getD "").isEmpty = true ∨ w.outFiles ((a.path).getD "") = Option.none)) :
    ∃ e, m = [("error", RVal.str e)] := by
  revert h
  unfold inferencePhase
  repeat' split
  all_goals intro h
  all_goals injection h with h1 h2
  all_goals subst h1
  all_goals subst h2
  all_goals first
    | exact ⟨_, rfl⟩
    | simp_all

theorem inferencePhase_success_read {w : World} {p : Extracted} {m : ResultMap}
    {c : Option (GenerationParams × GenerationConfig × GenOutcome)} {v : RVal}
    (h : inferencePhase w p = (m, c))
    (hv : m.lookup "audio_b64" = Option.some v) :
    ∃ pc cc r a rest bytes,
      c = Option.some (pc, cc, GenOutcome.returns r) ∧
      r.success = true ∧ r.audios = a :: rest ∧
      ((a.path).getD "").isEmpty = false ∧
      w.outFiles ((a.path).getD "") = Option.some bytes ∧
      v = RVal.str (w.lib.b64encode bytes) := by
  revert h hv
  unfold inferencePhase
  repeat' split
  all_goals intro h hv
  all_goals injection h with h1 h2
  all_goals subst h1
  all_goals subst h2
  all_goals simp [ResultMap.lookup, List.lookup] at hv
  exact ⟨_, _, _, _, _, _, by rw [show w.gen = _ from by assumption],
         by assumption, by assumption, by assumption, by assumption, hv.symm⟩

theorem C8_failure_error_verbatim (w : World) (s : ModelState) (job : Job)
    (pc : GenerationParams) (cc : GenerationConfig) (r : GenResult)
    (m : ResultMap)
    (hgen : (handler w s job).2.2.genCall = Option.some (pc, cc, GenOutcome.returns r))
    (hfail : r.success = false)
    (hm : (handler w s job).1 = Outcome.returns m) :
    m.lookup "error" = Option.some (RVal.str ("Generation failed: " ++ r.error)) ∧
    ∃ pre post, "Generation failed: " ++ r.error = pre ++ r.error ++ post := by
  refine ⟨?_, "Generation failed: ", "", by simp⟩
  revert hgen hm
  unfold handler
  repeat' split
  all_goals intro hgen hm
  all_goals try (simp at hgen)
  injection hm with hm
  subst hm
  have hme := inferencePhase_gen_failed (by assumption) hgen hfail
  subst hme
  rfl

theorem C6_no_unverified_success (w : World) (s : ModelState) (job : Job) :
    (∀ pc cc r, (handler w s job).2.2.genCall = Option.some (pc, cc, GenOutcome.returns r) →
      r.success = true →
      (r.audios = [] ∨ ∃ a rest, r.audios = a :: rest ∧
        (((a.path).getD "").isEmpty = true ∨ w.outFiles ((a.path).getD "") = Option.none)) →
      ∃ e, (handler w s job).1 = Outcome.returns [("error", RVal.str e)]) ∧
    (∀ m v, (handler w s job).1 = Outcome.returns m →
      m.lookup "audio_b64" = Option.some v →
      ∃ pc cc r a rest bytes,
        (handler w s job).2.2.genCall = Option.some (pc, cc, GenOutcome.returns r) ∧
        r.success = true ∧ r.audios = a :: rest ∧
        ((a.path).getD "").isEmpty = false ∧
        w.outFiles ((a.path).getD "") = Option.some bytes ∧
        v = RVal.str (w.lib.b64encode bytes)) := by
  constructor
  · intro pc cc r hgen hs hbad
    revert hgen
    unfold handler
    repeat' split
    all_goals intro hgen
    all_goals try (simp at hgen)
    obtain ⟨e, he⟩ := inferencePhase_bad_outputs (by assumption) hgen hs hbad
    exact ⟨e, by rw [he]⟩
  · intro m v hm hv
    revert hm
    unfold handler
    repeat' split
    all_goals intro hm
    all_goals try (exact Outcome.noConfusion hm)
    all_goals injection hm with hm
    all_goals subst hm
    all_goals try (simp [ResultMap.lookup, List.lookup] at hv)
    obtain ⟨pc, cc, r, a, rest, bytes, hc, h1, h2, h3, h4, h5⟩ :=
      inferencePhase_success_read (by assumption) hv
    exact ⟨pc, cc, r, a, rest, bytes, hc, h1, h2, h3, h4, h5⟩

/-- A world whose generation call reports failure. -/
def wGenFail : World :=
  { wLoadedOk with gen := .returns { success := false, error := "cuda OOM", audios := [] } }

/-- A world whose generation call reports success yet yields no outputs. -/
def wEmptyAudios : World :=
  { wLoadedOk with gen := .returns { success := true, error := "", audios := [] } }

/-- C8, witness: a concrete failing generation run. -/
theorem C8_failure_error_verbatim_witness :
    ResultMap.lookup [("error", RVal.str "Generation failed: cuda OOM")] "error" =
      Option.some (RVal.str ("Generation failed: " ++ "cuda OOM")) ∧
    ∃ pre post, "Generation failed: " ++ "cuda OOM" = pre ++ "cuda OOM" ++ post :=
  C8_failure_error_verbatim wGenFail sLoaded jobGood _ _ _
    [("error", RVal.str "Generation failed: cuda OOM")]
    (by rfl) (by rfl) (by rfl)

/-- C6, witness: part one at a run that reports success with no outputs, part
two at a fully successful run. -/
theorem C6_no_unverified_success_witness :
    (∃ e, (handler wEmptyAudios sLoaded jobGood).1 =
        Outcome.returns [("error", RVal.str e)]) ∧
    (∃ pc cc r a rest bytes,
      (handler wLoadedOk sLoaded jobGood).2.2.genCall =
        Option.some (pc, cc, GenOutcome.returns r) ∧
      r.success = true ∧ r.audios = a :: rest ∧
      ((a.path).getD "").isEmpty = false ∧
      wLoadedOk.outFiles ((a.path).getD "") = Option.some bytes ∧
      RVal.str "QUJD" = RVal.str (wLoadedOk.lib.b64encode bytes)) :=
  ⟨(C6_no_unverified_success wEmptyAudios sLoaded jobGood).1 _ _ _
      (by rfl) (by rfl) (Or.inl rfl),
   (C6_no_unverified_success wLoadedOk sLoaded jobGood).2
      [("audio_b64", RVal.str "QUJD"), ("format", RVal.str "wav"),
       ("duration", RVal.rat 30), ("seed", RVal.int (-1)),
       ("inference_time", RVal.rat (pyRound2 (5/2)))]
      (RVal.str "QUJD") (by rfl) (by rfl)⟩

/-- The process-state invariant of C10: a set DiT handle excludes a recorded
initialization error. -/
def InvOk (s : ModelState) : Prop :=
  s.ditHandler.isSome = true → s.initError = Option.none

/-- The operation `_ensure_model_loaded` preserves the invariant. -/
theorem ensureModelLoaded_invOk {w : World} {s : ModelState} (h : InvOk s) :
    InvOk (ensureModelLoaded w s).2.1 := by
  unfold ensureModelLoaded
  repeat' split
  all_goals simp_all [InvOk]

/-- The operation `handler` preserves the invariant (its state update is the one performed
by `_ensure_model_loaded`). -/
theorem handler_invOk {w : World} {s : ModelState} {job : Job} (h : InvOk s) :
    InvOk (handler w s job).2.1 := by
  unfold handler
  repeat' split
  all_goals (have hh := ensureModelLoaded_invOk (w := w) h; simp_all)

/-- Every event preserves the invariant. -/
theorem stepCall_invOk {s : ModelState} (c : Call) (h : InvOk s) :
    InvOk (stepCall s c) := by
  cases c with
  | ensure w => exact ensureModelLoaded_invOk h
  | job w j => exact handler_invOk h

/-- The invariant holds after any event sequence from an invariant state. -/
theorem runCalls_invOk : ∀ (cs : List Call) (s : ModelState),
    InvOk s → InvOk (runCalls cs s)
  | [], _, h => h
  | c :: cs, s, h => runCalls_invOk cs (stepCall s c) (stepCall_invOk c h)

/-- C10: after any sequence of `_ensure_model_loaded` calls and job
dispatches from process start, the module state is exactly one of unloaded
(no handle, no error), loaded (handle, no error) or failed (no handle,
recorded error) — the handle and the recorded error are never both set. -/
theorem C10_loaded_excludes_error (cs : List Call) :
    ((runCalls cs initialState).ditHandler.isSome = false ∧
     (runCalls cs initialState).initError.isSome = false) ∨
    ((runCalls cs initialState).ditHandler.isSome = true ∧
     (runCalls cs initialState).initError.isSome = false) ∨
    ((runCalls cs initialState).ditHandler.isSome = false ∧
     (runCalls cs initialState).initError.isSome = true) := by
  have h := runCalls_invOk cs initialState (fun habs => nomatch habs)
  cases hd : (runCalls cs initialState).ditHandler.isSome with
  | true => exact Or.inr (Or.inl ⟨rfl, by simp [h hd]⟩)
  | false =>
    cases he : (runCalls cs initialState).initError.isSome with
    | true => exact Or.inr (Or.inr ⟨rfl, rfl⟩)
    | false => exact Or.inl ⟨rfl, rfl⟩

/-- C10, instance: a failed pre-load followed by a job lands in the failed
state, not in a mixed one. -/
theorem C10_loaded_excludes_error_witness :
    ((runCalls [Call.ensure wFailedInit, Call.job wLoadedOk jobGood]
        initialState).ditHandler.isSome = false ∧
     (runCalls [Call.ensure wFailedInit, Call.job wLoadedOk jobGood]
        initialState).initError.isSome = false) ∨
    ((runCalls [Call.ensure wFailedInit, Call.job wLoadedOk jobGood]
        initialState).ditHandler.isSome = true ∧
     (runCalls [Call.ensure wFailedInit, Call.job wLoadedOk jobGood]
        initialState).initError.isSome = false) ∨
    ((runCalls [Call.ensure wFailedInit, Call.job wLoadedOk jobGood]
        initialState).ditHandler.isSome = false ∧
     (runCalls [Call.ensure wFailedInit, Call.job wLoadedOk jobGood]
        initialState).initError.isSome = true) :=
  C10_loaded_excludes_error [Call.ensure wFailedInit, Call.job wLoadedOk jobGood]

end SophiaRunpod
